import Mathlib

/-!
Shallow embedding of the pose-tracking, spatial-filtering and sonification
logic of the Sonotecture front-end, taken from src/app/page.tsx
(LocationDisplay) and src/app/components/MapWithGeoJson.tsx (the map
variants with directional filtering and with radius filtering plus
sonification).  JavaScript numbers are modelled as exact rationals for the
threshold and scheduling logic and as real numbers for the trigonometric
geometry; JavaScript truthiness of a nullable number is modelled on Option
values, where none and 0 are the falsy cases.
-/

namespace Sonotecture

/-- Position-update threshold in degrees, from page.tsx line 11. -/
def positionThreshold : ℚ := 1 / 10000

/-- Heading-update threshold in degrees, from page.tsx line 12. -/
def headingThreshold : ℚ := 1

/-- State held by the LocationDisplay component of page.tsx: the last
stored latitude and longitude, null before the first accepted sample. -/
structure PosState where
  latitude : Option ℚ
  longitude : Option ℚ
  deriving DecidableEq

/-- Update of one coordinate inside the watchPosition callback of page.tsx
lines 23-34: the fresh value is stored iff the stored value is falsy in
JavaScript (null or 0) or differs from the stored value by strictly more
than positionThreshold; otherwise the stored value is kept. -/
def acceptCoord (stored : Option ℚ) (fresh : ℚ) : Option ℚ :=
  match stored with
  | none => some fresh
  | some v =>
      if v = 0 ∨ positionThreshold < |fresh - v| then some fresh else some v

/-- The watchPosition callback of page.tsx lines 18-35: latitude and
longitude are each thresholded independently of the other. -/
def ingestPosition (s : PosState) (newLat newLon : ℚ) : PosState :=
  { latitude := acceptCoord s.latitude newLat
    longitude := acceptCoord s.longitude newLon }

/-- The handleOrientation callback of page.tsx lines 52-60: a fresh heading
is stored iff the stored heading is falsy in JavaScript (null or 0) or
differs from the stored heading by strictly more than headingThreshold in
plain absolute value. -/
def ingestHeading (stored : Option ℚ) (fresh : ℚ) : Option ℚ :=
  match stored with
  | none => some fresh
  | some v =>
      if v = 0 ∨ headingThreshold < |fresh - v| then some fresh else some v

/-- Circular distance between two headings as the specification words it:
min of the raw absolute difference and 360 minus that difference.  This
definition follows the words of the spec, for comparison against
ingestHeading; the source itself never computes a circular distance. -/
def circularDistance (a b : ℚ) : ℚ := min |a - b| (360 - |a - b|)

/-- A building feature as read by generateMusicFromBuildings of
MapWithGeoJson.tsx: only the properties.measuredHeight field matters,
absent or numeric. -/
structure Building where
  measuredHeight : Option ℚ
  deriving DecidableEq

/-- One pending setTimeout registered by generateMusicFromBuildings: the
delay in milliseconds and the frequency and duration handed to playSound
when the timer fires. -/
structure SoundTimer where
  delayMs : ℚ
  frequency : ℚ
  durationSec : ℚ
  deriving DecidableEq

/-- Body of the forEach in generateMusicFromBuildings, MapWithGeoJson.tsx
lines 356-367, with the forEach index made an explicit argument: a
building whose measuredHeight is truthy (present and nonzero) registers
one timer at delay index times 500 ms with frequency 100 plus twice the
height and duration 0.5 s; any other building registers nothing but still
advances the index. -/
def musicTimersFrom : List Building → ℕ → List SoundTimer
  | [], _ => []
  | b :: rest, index =>
      (match b.measuredHeight with
       | some h =>
           if h = 0 then [] else [⟨(index : ℚ) * 500, 100 + h * 2, 1 / 2⟩]
       | none => []) ++ musicTimersFrom rest (index + 1)

/-- generateMusicFromBuildings, MapWithGeoJson.tsx lines 356-367: the
timers registered for one run, indices counted from zero. -/
def generateMusicFromBuildings (buildings : List Building) : List SoundTimer :=
  musicTimersFrom buildings 0

/-- Global timer state of the sonified component: the setTimeout timers
currently pending, as pairs of absolute fire time in milliseconds and the
timer payload.  The component keeps no handle to these timers and never
calls clearTimeout. -/
structure SchedState where
  pending : List (ℚ × SoundTimer)
  deriving DecidableEq

/-- Starting a scheduling run at wall-clock time now, MapWithGeoJson.tsx
lines 370-385: generateMusicFromBuildings registers its timers relative to
now, and nothing already pending is cleared or invalidated, because the
source stores no timeout ids. -/
def startRun (now : ℚ) (buildings : List Building) (s : SchedState) :
    SchedState :=
  ⟨s.pending ++
    (generateMusicFromBuildings buildings).map (fun t => (now + t.delayMs, t))⟩

/-- The timers that fire at a given wall-clock time: every pending timer
whose absolute fire time has come plays its sound unconditionally, since
the source checks no cancellation token and holds no timeout id to
clear. -/
def timersFiringAt (s : SchedState) (time : ℚ) : List SoundTimer :=
  (s.pending.filter (fun p => p.1 == time)).map (fun p => p.2)

/-- Reference layout used in the non-overlap proof: one timer per building
at delay index times 500 ms, duration 0.5 s, ignoring truthiness.  It
coincides with musicTimersFrom exactly when every height is truthy. -/
def musicLayout : List Building → ℕ → List SoundTimer
  | [], _ => []
  | b :: rest, index =>
      ⟨(index : ℚ) * 500, 100 + b.measuredHeight.getD 0 * 2, 1 / 2⟩ ::
        musicLayout rest (index + 1)

/-- Every building in the list has a truthy measuredHeight, meaning
present and nonzero, so that generateMusicFromBuildings skips none. -/
def TruthyHeights (bs : List Building) : Prop :=
  ∀ b ∈ bs, b.measuredHeight ≠ none ∧ b.measuredHeight ≠ some 0

/-- A timer list is non-overlapping when consecutive timers have strictly
increasing delays and each delay is at least the previous delay plus the
previous duration in milliseconds. -/
def NonOverlapping (l : List SoundTimer) : Prop :=
  List.Chain'
    (fun e f =>
      e.delayMs < f.delayMs ∧ e.delayMs + e.durationSec * 1000 ≤ f.delayMs) l

noncomputable section

open Real

/-- Degree-to-radian conversion used by both geometry helpers of
MapWithGeoJson.tsx. -/
def toRadians (deg : ℝ) : ℝ := deg * (π / 180)

/-- Radian-to-degree conversion used by calculateBearing,
MapWithGeoJson.tsx line 151. -/
def toDegrees (rad : ℝ) : ℝ := rad * (180 / π)

/-- Truncation toward zero on the reals, as the JavaScript remainder
operator uses. -/
def truncToward (x : ℝ) : ℤ := if 0 ≤ x then ⌊x⌋ else ⌈x⌉

/-- The JavaScript remainder a % b, namely a minus b times the truncated
quotient. -/
def jsMod (a b : ℝ) : ℝ := a - b * truncToward (a / b)

/-- The JavaScript Math.atan2 on real arguments, signed zeros ignored. -/
def atan2 (y x : ℝ) : ℝ :=
  if 0 < x then arctan (y / x)
  else if x < 0 then
    (if 0 ≤ y then arctan (y / x) + π else arctan (y / x) - π)
  else if 0 < y then π / 2
  else if y < 0 then -(π / 2)
  else 0

/-- The intermediate value a of calculateDistance, MapWithGeoJson.tsx
lines 398-403: the haversine of the central angle. -/
def haversineA (lat1 lon1 lat2 lon2 : ℝ) : ℝ :=
  sin (toRadians (lat2 - lat1) / 2) * sin (toRadians (lat2 - lat1) / 2) +
    cos (toRadians lat1) * cos (toRadians lat2) *
      sin (toRadians (lon2 - lon1) / 2) * sin (toRadians (lon2 - lon1) / 2)

/-- calculateDistance, MapWithGeoJson.tsx lines 388-406: haversine
great-circle distance in kilometres with Earth radius 6371 km. -/
def calculateDistance (lat1 lon1 lat2 lon2 : ℝ) : ℝ :=
  6371 *
    (2 *
      atan2 (sqrt (haversineA lat1 lon1 lat2 lon2))
        (sqrt (1 - haversineA lat1 lon1 lat2 lon2)))

/-- The intermediate value y of calculateBearing, MapWithGeoJson.tsx
line 153. -/
def bearingY (lat1 lon1 lat2 lon2 : ℝ) : ℝ :=
  sin (toRadians (lon2 - lon1)) * cos (toRadians lat2)

/-- The intermediate value x of calculateBearing, MapWithGeoJson.tsx
lines 154-156. -/
def bearingX (lat1 lon1 lat2 lon2 : ℝ) : ℝ :=
  cos (toRadians lat1) * sin (toRadians lat2) -
    sin (toRadians lat1) * cos (toRadians lat2) * cos (toRadians (lon2 - lon1))

/-- calculateBearing, MapWithGeoJson.tsx lines 144-158: forward azimuth in
degrees, wrapped by adding 360 and taking the JavaScript remainder by
360. -/
def calculateBearing (lat1 lon1 lat2 lon2 : ℝ) : ℝ :=
  jsMod
    (toDegrees (atan2 (bearingY lat1 lon1 lat2 lon2)
        (bearingX lat1 lon1 lat2 lon2)) + 360)
    360

/-- The representative vertex of a building feature as the two filtering
effects read it: longitude and latitude of geometry.coordinates for the
directional variant, and of the first vertex of the first ring for the
radius variant. -/
structure FeaturePt where
  lon : ℝ
  lat : ℝ

open Classical in
/-- The radius-filtering effect of the sonified MapWithGeoJson variant,
lines 370-385: when geojson data is loaded, keep the features whose
distance from the user position is at most 8 km.  The heading is a
dependency of the effect but is never read by the predicate.  When no data
is loaded, nothing is recomputed and the previous filtered list stays. -/
def radiusFilterEffect (geojson : Option (List FeaturePt))
    (lat lon heading : ℝ) (prev : List FeaturePt) : List FeaturePt :=
  match geojson with
  | some feats =>
      feats.filter (fun f => decide (calculateDistance lat lon f.lat f.lon ≤ 8))
  | none => prev

open Classical in
/-- The directional-filtering effect of the first MapWithGeoJson variant,
lines 121-141: it recomputes only when geojson data is loaded, latitude
and longitude are truthy and the heading is not null; it then keeps the
features whose bearing differs from the heading by at most 30 degrees in
plain absolute value.  In every other case the previous filtered list
stays. -/
def directionalFilterEffect (geojson : Option (List FeaturePt))
    (lat lon : ℝ) (heading : Option ℝ) (prev : List FeaturePt) :
    List FeaturePt :=
  match geojson, heading with
  | some feats, some hd =>
      if lat = 0 ∨ lon = 0 then prev
      else
        feats.filter
          (fun f => decide (|calculateBearing lat lon f.lat f.lon - hd| ≤ 30))
  | _, _ => prev

end

/-- C3 counterexample: from stored position (35, 139), the sample
(35 + 1/100, 139 + 1/20000) moves latitude by more than the threshold, so
under the claim the sample is accepted and both coordinates are updated;
the code nevertheless leaves the stored longitude at 139 because the
longitude is thresholded on its own. -/
theorem C3_counterexample :
    positionThreshold < |(35 + 1 / 100 : ℚ) - 35| ∧
    (ingestPosition ⟨some 35, some 139⟩ (35 + 1 / 100)
        (139 + 1 / 20000)).longitude ≠ some (139 + 1 / 20000) := by
  constructor
  · rw [show (35 + 1 / 100 : ℚ) - 35 = 1 / 100 by norm_num,
      abs_of_pos (by norm_num : (0 : ℚ) < 1 / 100)]
    rw [show positionThreshold = 1 / 10000 from rfl]
    norm_num
  · simp only [ingestPosition, acceptCoord]
    rw [if_neg]
    · intro h
      rw [Option.some.injEq] at h
      norm_num at h
    · rintro (h | h)
      · norm_num at h
      · rw [show (139 + 1 / 20000 : ℚ) - 139 = 1 / 20000 by norm_num,
          abs_of_pos (by norm_num : (0 : ℚ) < 1 / 20000),
          show positionThreshold = 1 / 10000 from rfl] at h
        norm_num at h

/-- C3 amended: latitude and longitude are thresholded independently in
the watchPosition callback; with a nonzero stored coordinate the fresh
value is stored iff it moves by strictly more than positionThreshold, each
coordinate on its own, and a first sample is always stored whole. -/
theorem C3_independent_thresholds (s : PosState) (vLat vLon newLat newLon : ℚ)
    (hLat : s.latitude = some vLat) (hLon : s.longitude = some vLon)
    (hLatNZ : vLat ≠ 0) (hLonNZ : vLon ≠ 0) :
    (ingestPosition s newLat newLon).latitude =
      (if positionThreshold < |newLat - vLat| then some newLat
        else some vLat) ∧
    (ingestPosition s newLat newLon).longitude =
      (if positionThreshold < |newLon - vLon| then some newLon
        else some vLon) ∧
    ingestPosition ⟨none, none⟩ newLat newLon =
      ⟨some newLat, some newLon⟩ := by
  refine ⟨?_, ?_, rfl⟩
  · simp [ingestPosition, acceptCoord, hLat, hLatNZ]
  · simp [ingestPosition, acceptCoord, hLon, hLonNZ]

/-- C3 witness: the amended statement applied to the third sample of the
stream of the spec, 35.0002 arriving over stored (35, 139). -/
theorem C3_independent_thresholds_witness :
    (PosState.mk (some 35) (some 139)).latitude = some 35 ∧
    ((35 : ℚ) ≠ 0) ∧ ((139 : ℚ) ≠ 0) ∧
    ((ingestPosition ⟨some 35, some 139⟩ (35 + 1 / 5000) 139).latitude =
      (if positionThreshold < |(35 + 1 / 5000 : ℚ) - 35| then
          some (35 + 1 / 5000)
        else some 35) ∧
    (ingestPosition ⟨some 35, some 139⟩ (35 + 1 / 5000) 139).longitude =
      (if positionThreshold < |(139 : ℚ) - 139| then some 139
        else some 139) ∧
    ingestPosition ⟨none, none⟩ (35 + 1 / 5000) 139 =
      ⟨some (35 + 1 / 5000), some 139⟩) :=
  ⟨rfl, by decide, by decide,
    C3_independent_thresholds ⟨some 35, some 139⟩ 35 139 (35 + 1 / 5000) 139
      rfl rfl (by decide) (by decide)⟩

/-- C4 counterexample: with stored heading 359.5 and fresh heading 0.2 the
circular distance is 0.7, at most the threshold of 1, so under the claim
the sample is rejected; the code compares the plain absolute difference
359.3 against the threshold and accepts it. -/
theorem C4_counterexample :
    circularDistance (1 / 5) (719 / 2) ≤ headingThreshold ∧
    ingestHeading (some (719 / 2)) (1 / 5) = some (1 / 5) := by
  have habs : |(1 / 5 : ℚ) - 719 / 2| = 3593 / 10 := by
    rw [show (1 / 5 : ℚ) - 719 / 2 = -(3593 / 10) by norm_num, abs_neg,
      abs_of_pos (by norm_num : (0 : ℚ) < 3593 / 10)]
  constructor
  · simp only [circularDistance, headingThreshold]
    rw [habs]
    norm_num [min_def]
  · simp only [ingestHeading]
    rw [if_pos (Or.inr (by rw [show headingThreshold = 1 from rfl, habs]; norm_num))]

/-- C4 amended: in handleOrientation a fresh heading over a nonzero stored
heading is stored iff the plain absolute difference, not the circular
distance, exceeds the threshold of 1 degree; a first sample is always
stored, and a stored heading of 0 is falsy so the next sample is always
stored too. -/
theorem C4_plain_difference_threshold (v fresh : ℚ) (hv : v ≠ 0) :
    ingestHeading (some v) fresh =
      (if headingThreshold < |fresh - v| then some fresh else some v) ∧
    ingestHeading none fresh = some fresh ∧
    ingestHeading (some 0) fresh = some fresh := by
  refine ⟨?_, rfl, ?_⟩
  · simp [ingestHeading, hv]
  · simp [ingestHeading]

/-- C4 witness: the amended statement applied to stored heading 5 and
fresh heading 7. -/
theorem C4_plain_difference_threshold_witness :
    ((5 : ℚ) ≠ 0) ∧
    (ingestHeading (some 5) 7 =
        (if headingThreshold < |(7 : ℚ) - 5| then some 7 else some 5) ∧
      ingestHeading none 7 = some 7 ∧
      ingestHeading (some 0) 7 = some 7) :=
  ⟨by decide, C4_plain_difference_threshold 5 7 (by decide)⟩

/-- Helper: when every height is truthy, the timers of a run coincide
with the reference layout of one timer per building. -/
theorem musicTimersFrom_eq_layout (bs : List Building) (i : ℕ)
    (h : TruthyHeights bs) : musicTimersFrom bs i = musicLayout bs i := by
  induction bs generalizing i with
  | nil => rfl
  | cons b rest ih =>
      obtain ⟨h1, h2⟩ := h b (List.mem_cons_self b rest)
      have hrest : TruthyHeights rest := fun x hx =>
        h x (List.mem_cons_of_mem b hx)
      cases hb : b.measuredHeight with
      | none => exact absurd hb h1
      | some v =>
          have hv : v ≠ 0 := fun e => h2 (by rw [hb, e])
          simp [musicTimersFrom, musicLayout, hb, hv]
          exact ih (i + 1) hrest

/-- Helper: the reference layout has one timer per building. -/
theorem musicLayout_length (bs : List Building) (i : ℕ) :
    (musicLayout bs i).length = bs.length := by
  induction bs generalizing i with
  | nil => rfl
  | cons b rest ih => simp [musicLayout, ih]

/-- Helper: consecutive timers of the reference layout are 500 ms apart,
which is exactly the duration of 0.5 s expressed in milliseconds. -/
theorem musicLayout_nonoverlapping (bs : List Building) (i : ℕ) :
    NonOverlapping (musicLayout bs i) := by
  induction bs generalizing i with
  | nil => exact List.chain'_nil
  | cons b rest ih =>
      cases rest with
      | nil => simp [musicLayout, NonOverlapping]
      | cons c rest2 =>
          have hih := ih (i + 1)
          rw [NonOverlapping] at hih ⊢
          simp only [musicLayout] at hih ⊢
          refine List.chain'_cons.mpr ⟨⟨?_, ?_⟩, hih⟩
          · show (i : ℚ) * 500 < ((i + 1 : ℕ) : ℚ) * 500
            push_cast
            linarith
          · show (i : ℚ) * 500 + 1 / 2 * 1000 ≤ ((i + 1 : ℕ) : ℚ) * 500
            push_cast
            linarith

/-- C5 counterexample: two buildings with distinct present heights 0 and
10 give one generated event, not two, because a present height of 0 is
falsy and its building is skipped. -/
theorem C5_counterexample :
    ([⟨some 0⟩, ⟨some 10⟩] : List Building).length = 2 ∧
    (∀ b ∈ ([⟨some 0⟩, ⟨some 10⟩] : List Building),
      b.measuredHeight ≠ none) ∧
    (([⟨some 0⟩, ⟨some 10⟩] : List Building).map
        (fun b => b.measuredHeight)).Nodup ∧
    (generateMusicFromBuildings [⟨some 0⟩, ⟨some 10⟩]).length = 1 := by
  refine ⟨rfl, by decide, by decide, ?_⟩
  norm_num [generateMusicFromBuildings, musicTimersFrom]

/-- C5 amended: for buildings whose heights are all present, nonzero and
pairwise distinct, the generated events are one per building, laid out
with strictly increasing delays where each delay is at least the previous
delay plus the previous duration times 1000 ms; in this code both hold
with equality at a fixed 500 ms step. -/
theorem C5_nonoverlap_for_truthy_heights (bs : List Building)
    (hall : TruthyHeights bs)
    (hdistinct : (bs.map (fun b => b.measuredHeight)).Nodup) :
    (generateMusicFromBuildings bs).length = bs.length ∧
    NonOverlapping (generateMusicFromBuildings bs) := by
  unfold generateMusicFromBuildings
  rw [musicTimersFrom_eq_layout bs 0 hall]
  exact ⟨musicLayout_length bs 0, musicLayout_nonoverlapping bs 0⟩

/-- C5 witness: two buildings of heights 10 and 20 give two events on a
non-overlapping timeline. -/
theorem C5_nonoverlap_witness :
    TruthyHeights [⟨some 10⟩, ⟨some 20⟩] ∧
    (([⟨some 10⟩, ⟨some 20⟩] : List Building).map
        (fun b => b.measuredHeight)).Nodup ∧
    (generateMusicFromBuildings [⟨some 10⟩, ⟨some 20⟩]).length = 2 ∧
    NonOverlapping (generateMusicFromBuildings [⟨some 10⟩, ⟨some 20⟩]) := by
  have h1 : TruthyHeights [⟨some 10⟩, ⟨some 20⟩] := by
    unfold TruthyHeights
    decide
  have h2 : (([⟨some 10⟩, ⟨some 20⟩] : List Building).map
      (fun b => b.measuredHeight)).Nodup := by decide
  have h3 := C5_nonoverlap_for_truthy_heights [⟨some 10⟩, ⟨some 20⟩] h1 h2
  exact ⟨h1, h2, h3.1, h3.2⟩

/-- Helper: membership in the timers of a run started at forEach index j,
characterised by position in the building list. -/
theorem mem_musicTimersFrom (bs : List Building) (j : ℕ) (t : SoundTimer) :
    t ∈ musicTimersFrom bs j ↔
      ∃ i : ℕ, ∃ b : Building, ∃ h : ℚ, bs[i]? = some b ∧
        b.measuredHeight = some h ∧ h ≠ 0 ∧
        t = ⟨((j + i : ℕ) : ℚ) * 500, 100 + h * 2, 1 / 2⟩ := by
  induction bs generalizing j with
  | nil => simp [musicTimersFrom]
  | cons bb rest ih =>
      cases hb : bb.measuredHeight with
      | none =>
          have hstep : musicTimersFrom (bb :: rest) j =
              musicTimersFrom rest (j + 1) := by
            simp [musicTimersFrom, hb]
          rw [hstep, ih (j + 1)]
          constructor
          · rintro ⟨i, b, h, hget, hmh, hnz, ht⟩
            refine ⟨i + 1, b, h, by simpa using hget, hmh, hnz, ?_⟩
            rw [ht]
            have e : j + 1 + i = j + (i + 1) := by omega
            rw [e]
          · rintro ⟨i, b, h, hget, hmh, hnz, ht⟩
            cases i with
            | zero =>
                simp only [List.getElem?_cons_zero, Option.some.injEq] at hget
                rw [hget] at hb
                rw [hb] at hmh
                exact absurd hmh (by simp)
            | succ k =>
                refine ⟨k, b, h, by simpa using hget, hmh, hnz, ?_⟩
                rw [ht]
                have e : j + (k + 1) = j + 1 + k := by omega
                rw [e]
      | some v =>
          by_cases hv : v = 0
          · subst hv
            have hstep : musicTimersFrom (bb :: rest) j =
                musicTimersFrom rest (j + 1) := by
              simp [musicTimersFrom, hb]
            rw [hstep, ih (j + 1)]
            constructor
            · rintro ⟨i, b, h, hget, hmh, hnz, ht⟩
              refine ⟨i + 1, b, h, by simpa using hget, hmh, hnz, ?_⟩
              rw [ht]
              have e : j + 1 + i = j + (i + 1) := by omega
              rw [e]
            · rintro ⟨i, b, h, hget, hmh, hnz, ht⟩
              cases i with
              | zero =>
                  simp only [List.getElem?_cons_zero, Option.some.injEq] at hget
                  rw [hget] at hb
                  rw [hb, Option.some.injEq] at hmh
                  exact absurd hmh.symm hnz
              | succ k =>
                  refine ⟨k, b, h, by simpa using hget, hmh, hnz, ?_⟩
                  rw [ht]
                  have e : j + (k + 1) = j + 1 + k := by omega
                  rw [e]
          · have hstep : musicTimersFrom (bb :: rest) j =
                (⟨(j : ℚ) * 500, 100 + v * 2, 1 / 2⟩ : SoundTimer) ::
                  musicTimersFrom rest (j + 1) := by
              simp [musicTimersFrom, hb, hv]
            rw [hstep, List.mem_cons, ih (j + 1)]
            constructor
            · rintro (ht | ⟨i, b, h, hget, hmh, hnz, ht⟩)
              · refine ⟨0, bb, v, by simp, hb, hv, ?_⟩
                rw [ht]
                norm_num
              · refine ⟨i + 1, b, h, by simpa using hget, hmh, hnz, ?_⟩
                rw [ht]
                have e : j + 1 + i = j + (i + 1) := by omega
                rw [e]
            · rintro ⟨i, b, h, hget, hmh, hnz, ht⟩
              cases i with
              | zero =>
                  left
                  simp only [List.getElem?_cons_zero, Option.some.injEq] at hget
                  rw [hget] at hb
                  rw [hb, Option.some.injEq] at hmh
                  rw [ht, ← hmh]
                  norm_num
              | succ k =>
                  right
                  refine ⟨k, b, h, by simpa using hget, hmh, hnz, ?_⟩
                  rw [ht]
                  have e : j + (k + 1) = j + 1 + k := by omega
                  rw [e]

/-- C9: a timer is generated for exactly the buildings whose
measuredHeight is present and nonzero, with frequency 100 plus twice the
height, a fixed 0.5 s duration, and a delay of 500 ms times the position
of the building in the full input list, so skipped buildings still consume
an offset slot. -/
theorem C9_event_characterization (bs : List Building) (t : SoundTimer) :
    t ∈ generateMusicFromBuildings bs ↔
      ∃ i : ℕ, ∃ b : Building, ∃ h : ℚ, bs[i]? = some b ∧
        b.measuredHeight = some h ∧ h ≠ 0 ∧
        t = ⟨(i : ℚ) * 500, 100 + h * 2, 1 / 2⟩ := by
  unfold generateMusicFromBuildings
  rw [mem_musicTimersFrom bs 0 t]
  simp [Nat.zero_add]

/-- C1 evaluated at the failing input: run one starts at time 0 over two
buildings of heights 10 and 20, registering timers at absolute times 0 and
500 ms; run two starts at time 100 ms; the 500 ms timer of run one is
still pending afterwards, because the code never clears timers, and
500 is after the new run start at 100, contradicting the claimed
cancellation. -/
theorem C1_uncancelled_prior_run_timer :
    (500, (⟨500, 140, 1 / 2⟩ : SoundTimer)) ∈
      (startRun 100 [⟨some 30⟩]
        (startRun 0 [⟨some 10⟩, ⟨some 20⟩] ⟨[]⟩)).pending ∧
    (⟨500, 140, 1 / 2⟩ : SoundTimer) ∈
      timersFiringAt (startRun 100 [⟨some 30⟩]
        (startRun 0 [⟨some 10⟩, ⟨some 20⟩] ⟨[]⟩)) 500 ∧
    (100 : ℚ) < 500 := by
  refine ⟨?_, ?_, by norm_num⟩
  · norm_num [startRun, generateMusicFromBuildings, musicTimersFrom]
  · have h1 : ((0 : ℚ) == 500) = false := beq_eq_false_iff_ne.mpr (by norm_num)
    have h2 : ((500 : ℚ) == 500) = true := beq_self_eq_true 500
    have h3 : ((100 : ℚ) == 500) = false :=
      beq_eq_false_iff_ne.mpr (by norm_num)
    norm_num [timersFiringAt, startRun, generateMusicFromBuildings,
      musicTimersFrom, List.filter, h1, h2, h3]

/-- C2 amended: when the heading is null the directional filtering effect
does not recompute anything; the previously filtered list is left exactly
as it was, whatever the dataset and position are. -/
theorem C2_heading_null_keeps_previous (geojson : Option (List FeaturePt))
    (lat lon : ℝ) (prev : List FeaturePt) :
    directionalFilterEffect geojson lat lon none prev = prev := by
  cases geojson <;> rfl

/-- C10: the radius-filtering effect never reads the heading; two
evaluations on the same dataset and position but arbitrary different
headings return the same filtered list. -/
theorem C10_radius_filter_ignores_heading (geojson : Option (List FeaturePt))
    (lat lon hd1 hd2 : ℝ) (prev : List FeaturePt) :
    radiusFilterEffect geojson lat lon hd1 prev =
      radiusFilterEffect geojson lat lon hd2 prev := rfl

open Real

/-- Helper: the sine of half the converted difference flips sign when the
two endpoints swap, because sine is odd. -/
theorem sin_half_toRadians_sub (u v : ℝ) :
    sin (toRadians (u - v) / 2) = -sin (toRadians (v - u) / 2) := by
  have h : toRadians (u - v) = -toRadians (v - u) := by
    unfold toRadians
    ring
  rw [h, neg_div, Real.sin_neg]

/-- Helper: the haversine intermediate value is symmetric in its two
endpoints. -/
theorem haversineA_comm (lat1 lon1 lat2 lon2 : ℝ) :
    haversineA lat1 lon1 lat2 lon2 = haversineA lat2 lon2 lat1 lon1 := by
  unfold haversineA
  rw [sin_half_toRadians_sub lat2 lat1, sin_half_toRadians_sub lon2 lon1]
  ring

/-- C6: calculateDistance is symmetric in its two endpoints. -/
theorem C6_distance_symmetric (lat1 lon1 lat2 lon2 : ℝ) :
    calculateDistance lat1 lon1 lat2 lon2 =
      calculateDistance lat2 lon2 lat1 lon1 := by
  unfold calculateDistance
  rw [haversineA_comm]

/-- Helper: the haversine intermediate value vanishes on identical
endpoints. -/
theorem haversineA_self (lat lon : ℝ) : haversineA lat lon lat lon = 0 := by
  unfold haversineA toRadians
  simp

/-- Helper: calculateDistance of a point to itself is 0, shared between
the degenerate-input claim and the filtering counterexample. -/
theorem calculateDistance_self (lat lon : ℝ) :
    calculateDistance lat lon lat lon = 0 := by
  unfold calculateDistance
  rw [haversineA_self, Real.sqrt_zero, sub_zero, Real.sqrt_one]
  unfold atan2
  rw [if_pos one_pos, zero_div, Real.arctan_zero]
  ring

/-- Helper: the modelled Math.atan2 always lies in the interval from
minus pi exclusive to pi inclusive. -/
theorem atan2_range (y x : ℝ) : -π < atan2 y x ∧ atan2 y x ≤ π := by
  have hpi := Real.pi_pos
  unfold atan2
  split_ifs with h1 h2 h3 h4 h5
  · exact ⟨by linarith [Real.neg_pi_div_two_lt_arctan (y / x)],
      by linarith [Real.arctan_lt_pi_div_two (y / x)]⟩
  · have hyx : y / x ≤ 0 := div_nonpos_of_nonneg_of_nonpos h3 h2.le
    have harc : arctan (y / x) ≤ 0 := by
      have hm := Real.arctan_strictMono.monotone hyx
      rwa [Real.arctan_zero] at hm
    exact ⟨by linarith [Real.neg_pi_div_two_lt_arctan (y / x)], by linarith⟩
  · have hyx : 0 < y / x := div_pos_of_neg_of_neg (not_le.mp h3) h2
    have harc : 0 < arctan (y / x) := by
      have hm := Real.arctan_strictMono hyx
      rwa [Real.arctan_zero] at hm
    exact ⟨by linarith, by linarith [Real.arctan_lt_pi_div_two (y / x)]⟩
  · exact ⟨by linarith, by linarith⟩
  · exact ⟨by linarith, by linarith⟩
  · exact ⟨by linarith, by linarith⟩

/-- Helper: the JavaScript remainder of a nonnegative value by a positive
modulus lies in the half-open interval from 0 to the modulus. -/
theorem jsMod_nonneg_lt (a b : ℝ) (ha : 0 ≤ a) (hb : 0 < b) :
    0 ≤ jsMod a b ∧ jsMod a b < b := by
  unfold jsMod truncToward
  have hab : 0 ≤ a / b := div_nonneg ha hb.le
  rw [if_pos hab]
  have hkey : a - b * (⌊a / b⌋ : ℝ) = b * Int.fract (a / b) := by
    rw [← Int.self_sub_floor]
    field_simp
  rw [hkey]
  constructor
  · exact mul_nonneg hb.le (Int.fract_nonneg _)
  · have hlt := mul_lt_mul_of_pos_left (Int.fract_lt_one (a / b)) hb
    simpa using hlt

/-- C7: calculateBearing always returns a value in the half-open interval
from 0 inclusive to 360 exclusive. -/
theorem C7_bearing_range (lat1 lon1 lat2 lon2 : ℝ) :
    0 ≤ calculateBearing lat1 lon1 lat2 lon2 ∧
      calculateBearing lat1 lon1 lat2 lon2 < 360 := by
  unfold calculateBearing
  refine jsMod_nonneg_lt _ _ ?_ (by norm_num)
  obtain ⟨hlow, hhigh⟩ :=
    atan2_range (bearingY lat1 lon1 lat2 lon2) (bearingX lat1 lon1 lat2 lon2)
  unfold toDegrees
  have hpos : (0 : ℝ) < 180 / π := by positivity
  have hmul : -π * (180 / π) ≤
      atan2 (bearingY lat1 lon1 lat2 lon2) (bearingX lat1 lon1 lat2 lon2) *
        (180 / π) :=
    mul_le_mul_of_nonneg_right hlow.le hpos.le
  have heq : -π * (180 / π) = -180 := by
    field_simp
    ring
  linarith

/-- Helper: the bearing intermediate value y vanishes on identical
endpoints. -/
theorem bearingY_self (lat lon : ℝ) : bearingY lat lon lat lon = 0 := by
  unfold bearingY toRadians
  simp

/-- Helper: the bearing intermediate value x vanishes on identical
endpoints. -/
theorem bearingX_self (lat lon : ℝ) : bearingX lat lon lat lon = 0 := by
  unfold bearingX toRadians
  rw [sub_self, zero_mul, Real.cos_zero]
  ring

/-- Helper: the modelled Math.atan2 returns 0 on the all-zero input, as
the JavaScript function does on positive zeros. -/
theorem atan2_zero_zero : atan2 0 0 = 0 := by
  unfold atan2
  simp

/-- Helper: 360 % 360 is 0 under the JavaScript remainder. -/
theorem jsMod_360_360 : jsMod 360 360 = 0 := by
  unfold jsMod truncToward
  rw [div_self (by norm_num : (360 : ℝ) ≠ 0)]
  rw [if_pos (by norm_num : (0 : ℝ) ≤ 1), Int.floor_one]
  norm_num

/-- C8: on identical endpoints both geometry helpers return defined
values, distance 0 and bearing 0, rather than failing. -/
theorem C8_degenerate_defined (lat lon : ℝ) :
    calculateDistance lat lon lat lon = 0 ∧
      calculateBearing lat lon lat lon = 0 := by
  refine ⟨calculateDistance_self lat lon, ?_⟩
  unfold calculateBearing
  rw [bearingY_self, bearingX_self, atan2_zero_zero]
  unfold toDegrees
  rw [zero_mul, zero_add, jsMod_360_360]

/-- C2 counterexample: a dataset with one feature at the user position,
previous filtered list empty and heading null.  The directional effect
returns the previous empty list, while the radius-only filtering of the
same dataset at the same position returns the feature, whose distance is
0 km; so the degraded result does not equal the radius-only result, and
the filtered set is not recomputed. -/
theorem C2_counterexample :
    directionalFilterEffect (some [⟨1396917 / 10000, 356895 / 10000⟩])
        (356895 / 10000) (1396917 / 10000) none [] = [] ∧
    radiusFilterEffect (some [⟨1396917 / 10000, 356895 / 10000⟩])
        (356895 / 10000) (1396917 / 10000) 0 [] =
      [⟨1396917 / 10000, 356895 / 10000⟩] := by
  constructor
  · rfl
  · have hp : decide (calculateDistance (356895 / 10000 : ℝ) (1396917 / 10000)
        (356895 / 10000) (1396917 / 10000) ≤ 8) = true := by
      rw [decide_eq_true_eq, calculateDistance_self]
      norm_num
    simp only [radiusFilterEffect]
    simp [List.filter_cons, List.filter_nil, hp]

end Sonotecture
